import Mathlib

/-
Verification development for a small Flask knowledge-assistant gateway
(app.py).  The external collaborators (the LangChain RetrievalQA pipeline,
the Cohere LLM, the Flask framework) are modelled as oracles and explicit
data; the glue code of app.py is translated faithfully.
-/

namespace App

/-- A Python exception value.  `keyError` models `KeyError` raised by a
plain dict lookup; `other` models any other exception from an upstream
call. -/
inductive PyExn where
  | keyError (key : String)
  | other (msg : String)
deriving DecidableEq

/-- A retrieved source document.  Externally owned record with a text
content field (`page_content`), as used by `search_knowledgebase`. -/
structure Document where
  page_content : String
deriving DecidableEq

/-- The value returned by a successful call to the RetrievalQA pipeline
(`qa({"query": ...})`): a primary result text and a list of source
documents (`return_source_documents=True`). -/
structure QAResult where
  result : String
  source_documents : List Document
deriving DecidableEq

/-- The retrieval pipeline handle built by `load_db`: an oracle mapping a
query string either to a `QAResult` or to a raised exception. -/
abbrev Pipeline : Type := String → Except PyExn QAResult

/-- The LLM oracle behind `LLMChain.predict`: given the api key and the
fully rendered prompt, returns the generated text or raises. -/
abbrev LlmOracle : Type := String → String → Except PyExn String

/-- Literal string returned by both knowledge-base handlers when the
pipeline handle is `None` (app.py lines 48 and 67). -/
def kbUnavailableMsg : String :=
  "Sorry, the knowledge base is not available at the moment. Please try again later."

/-- Literal string returned by `answer_from_knowledgebase` (line 54) and by
`answer_as_chatbot` (line 119) when an exception is caught. -/
def errProcessMsg : String :=
  "An error occurred while processing your request. Please try again."

/-- Literal string returned by `search_knowledgebase` when an exception is
caught (line 77). -/
def errSearchMsg : String :=
  "An error occurred while searching the knowledge base. Please try again."

/-- Python truthiness of a byte/character predicate for `str.strip()`:
whitespace characters stripped by Python include space, tab, CR, LF,
vertical tab and form feed. -/
def pyIsSpace (c : Char) : Bool :=
  c.isWhitespace || c = '\x0b' || c = '\x0c'

/-- Python `str.strip()`: remove leading and trailing whitespace. -/
def pyStrip (s : String) : String :=
  String.mk (((s.data.dropWhile pyIsSpace).reverse.dropWhile pyIsSpace).reverse)

/-- app.py lines 47-54, `answer_from_knowledgebase(message)`: if the global
pipeline handle is `None` return the unavailability string; otherwise call
it and return `res['result']`, catching any exception into the generic
processing-failure string. -/
def answer_from_knowledgebase (qa : Option Pipeline) (message : String) : String :=
  match qa with
  | none => kbUnavailableMsg
  | some p =>
    match p message with
    | .ok res => res.result
    | .error _ => errProcessMsg

/-- The `for count, source in enumerate(res['source_documents'], 1):` loop
of `search_knowledgebase` (app.py lines 70-73): accumulates
`f"Source {count}\n"` then `f"{source.page_content}\n"` for each document,
counting from the given start. -/
def searchLoop : Nat → List Document → String
  | _, [] => ""
  | count, d :: rest =>
      "Source " ++ toString count ++ "\n" ++ d.page_content ++ "\n" ++
        searchLoop (count + 1) rest

/-- app.py lines 66-77, `search_knowledgebase(message)`: unavailability
string when the handle is `None`; otherwise build the numbered source
blocks and return `sources.strip()`, catching any exception into the
search-failure string. -/
def search_knowledgebase (qa : Option Pipeline) (message : String) : String :=
  match qa with
  | none => kbUnavailableMsg
  | some p =>
    match p message with
    | .ok res => pyStrip (searchLoop 1 res.source_documents)
    | .error _ => errSearchMsg

/-- The fixed prompt template of `answer_as_chatbot` (app.py lines 99-105),
rendered with the given chat history and human input substituted for the
two template variables. -/
def chatPromptTemplate (chat_history human_input : String) : String :=
  "You are a helpful AI assistant. Your goal is to provide informative and engaging responses to user queries.\n\n        Current conversation:\n        "
    ++ chat_history ++
  "\n\n        Human: " ++ human_input ++ "\n        AI Assistant:"

/-- `ConversationBufferMemory`: the ordered chat transcript held by one
conversational chain object. -/
structure ConversationBufferMemory where
  messages : List String
deriving DecidableEq

/-- A freshly constructed `ConversationBufferMemory()` holds no messages
(app.py line 108 constructs one per call). -/
def ConversationBufferMemory.new : ConversationBufferMemory := ⟨[]⟩

/-- Rendering of a conversation buffer into the `chat_history` slot of the
prompt: each stored message on its own line. -/
def renderHistory (m : ConversationBufferMemory) : String :=
  String.intercalate "\n" m.messages

/-- `os.environ` / `os.getenv`, modelled as an association list. -/
abbrev Env : Type := List (String × String)

/-- app.py lines 92-119, `answer_as_chatbot(message)`: read the
`COHERE_API_KEY` environment variable; if missing or empty, the raised
`ValueError` is caught by the surrounding `except` and the generic
processing-failure string is returned.  Otherwise a fresh (empty)
`ConversationBufferMemory` is constructed, the prompt template is rendered
with the empty history and the new input, and the LLM oracle is invoked;
any exception again yields the generic failure string. -/
def answer_as_chatbot (env : Env) (llm : LlmOracle) (message : String) : String :=
  match env.lookup "COHERE_API_KEY" with
  | none => errProcessMsg
  | some key =>
    if key = "" then errProcessMsg
    else
      match llm key
        (chatPromptTemplate (renderHistory ConversationBufferMemory.new) message) with
      | .ok response => response
      | .error _ => errProcessMsg

/-- The server process state: the module-level pipeline handle `qa` set
once by `load_db()` at import time (app.py line 35), together with the
process environment and the LLM oracle used by the chatbot handler. -/
structure AppState where
  qa : Option Pipeline
  env : Env
  llm : LlmOracle

/-- The JSON request body of a POST, modelled as an association list of
string fields. -/
abbrev Body : Type := List (String × String)

/-- `request.json['message']`: a plain dict lookup that raises `KeyError`
when the field is absent. -/
def dictGet (body : Body) (key : String) : Except PyExn String :=
  match body.lookup key with
  | some v => .ok v
  | none => .error (.keyError key)

/-- The three POST routes of app.py. -/
inductive Route where
  | kbanswer
  | search
  | answer
deriving DecidableEq

/-- app.py lines 121-133, the `/kbanswer` view: extract `message` from the
JSON body (the raised `KeyError` propagates if absent), call
`answer_from_knowledgebase`, and return `jsonify({'message': ...}), 200`. -/
def kbanswer (st : AppState) (body : Body) :
    Except PyExn (List (String × String) × Nat) :=
  match dictGet body "message" with
  | .error e => .error e
  | .ok message => .ok ([("message", answer_from_knowledgebase st.qa message)], 200)

/-- app.py lines 135-147, the `/search` view. -/
def search (st : AppState) (body : Body) :
    Except PyExn (List (String × String) × Nat) :=
  match dictGet body "message" with
  | .error e => .error e
  | .ok message => .ok ([("message", search_knowledgebase st.qa message)], 200)

/-- app.py lines 149-161, the `/answer` view. -/
def answer (st : AppState) (body : Body) :
    Except PyExn (List (String × String) × Nat) :=
  match dictGet body "message" with
  | .error e => .error e
  | .ok message => .ok ([("message", answer_as_chatbot st.env st.llm message)], 200)

/-- Dispatch a POST request to the view registered for its path. -/
def dispatch (st : AppState) (r : Route) (body : Body) :
    Except PyExn (List (String × String) × Nat) :=
  match r with
  | .kbanswer => kbanswer st body
  | .search => search st body
  | .answer => answer st body

/-- Modelled from the Flask framework (not part of this repository): a view
returning normally produces its `(json, status)` response; an uncaught
non-HTTP exception escaping the view is converted by the framework into a
500 Internal Server Error response with no JSON payload. -/
def runFlask (r : Except PyExn (List (String × String) × Nat)) :
    Nat × Option (List (String × String)) :=
  match r with
  | .ok (payload, status) => (status, some payload)
  | .error _ => (500, none)

/-- One request step of the server.  No view contains a `global` assignment
or rebinds any module-level name, so the process state after the request is
the state before it. -/
def appStep (st : AppState) (r : Route) (body : Body) :
    (Nat × Option (List (String × String))) × AppState :=
  (runFlask (dispatch st r body), st)

/-- The process state after serving a sequence of requests. -/
def runSeq (st : AppState) : List (Route × Body) → AppState
  | [] => st
  | (r, body) :: rest => runSeq (appStep st r body).2 rest

/-- Specification-side description of one labeled block of the `/search`
output: the line `Source k` followed by the text content of the k-th
document. -/
def specBlock (k : Nat) (d : Document) : String :=
  "Source " ++ toString k ++ "\n" ++ d.page_content

/-- Specification-side joining of blocks, separated by single newlines. -/
def joinNL : List String → String
  | [] => ""
  | [b] => b
  | b :: c :: rest => b ++ "\n" ++ joinNL (c :: rest)

/-- Specification-side description of the full `/search` output for a list
of source documents: the blocks `Source k` (k ranging from 1 over the
documents in input order) each followed by that document text, separated by
newlines, with leading and trailing whitespace trimmed. -/
def specSearchFormat (docs : List Document) : String :=
  pyStrip (joinNL ((List.enumFrom 1 docs).map (fun p => specBlock p.1 p.2)))

/-- A pipeline oracle that always succeeds with a fixed result, used to
instantiate theorems at concrete inputs. -/
def okPipeline (res : QAResult) : Pipeline := fun _ => .ok res

/-- A pipeline oracle whose upstream call always raises. -/
def failPipeline : Pipeline := fun _ => .error (.other "boom")

/-- A concrete pair of source documents. -/
def sampleDocs : List Document := [⟨"alpha"⟩, ⟨"beta"⟩]

/-- An LLM oracle that echoes the submitted prompt. -/
def echoLlm : LlmOracle := fun _ prompt => .ok prompt

/- ------------------------------------------------------------------ -/
/- Helper lemmas                                                       -/
/- ------------------------------------------------------------------ -/

theorem searchLoop_eq_joinNL (docs : List Document) :
    ∀ n : Nat, searchLoop n docs =
      joinNL ((List.enumFrom n docs).map (fun p => specBlock p.1 p.2)) ++
        (if docs.isEmpty then "" else "\n") := by
  induction docs with
  | nil => intro n; rfl
  | cons d rest ih =>
    intro n
    cases rest with
    | nil =>
      simp [searchLoop, List.enumFrom_cons, joinNL, specBlock,
        String.append_assoc, String.append_empty]
    | cons c t =>
      have hrec := ih (n + 1)
      simp only [List.isEmpty_cons, if_neg] at hrec ⊢
      rw [searchLoop, hrec]
      simp [List.enumFrom_cons, joinNL, specBlock, String.append_assoc]

theorem pyIsSpace_newline : pyIsSpace '\n' = true := by decide

theorem pyStrip_append_newline (s : String) : pyStrip (s ++ "\n") = pyStrip s := by
  unfold pyStrip
  rw [String.data_append]
  show String.mk ((((s.data ++ ['\n']).dropWhile pyIsSpace).reverse.dropWhile
    pyIsSpace).reverse) = _
  rw [List.dropWhile_append]
  by_cases h : (s.data.dropWhile pyIsSpace).isEmpty
  · rw [if_pos h]
    rw [List.isEmpty_iff] at h
    rw [h]
    simp [List.dropWhile_cons_of_pos pyIsSpace_newline]
  · rw [if_neg h]
    have : ((s.data.dropWhile pyIsSpace) ++ ['\n']).reverse =
        '\n' :: (s.data.dropWhile pyIsSpace).reverse := by
      simp
    rw [this, List.dropWhile_cons_of_pos pyIsSpace_newline]

/-- On a concrete document list the specification format evaluates to the
expected literal text. -/
theorem specSearchFormat_sample :
    specSearchFormat sampleDocs = "Source 1\nalpha\nSource 2\nbeta" := by
  decide

/- ------------------------------------------------------------------ -/
/- Claim theorems                                                      -/
/- ------------------------------------------------------------------ -/

/-- C1: for every successful call to `search_knowledgebase` in which the
pipeline returns a list of N source documents, the returned string is the
N labeled blocks in input order, the k-th block being the line `Source k`
followed by that document text, blocks separated by newlines, with leading
and trailing whitespace trimmed. -/
theorem C1_search_labeled_blocks (p : Pipeline) (msg : String) (res : QAResult)
    (h : p msg = .ok res) :
    search_knowledgebase (some p) msg = specSearchFormat res.source_documents := by
  show (match p msg with
    | .ok res => pyStrip (searchLoop 1 res.source_documents)
    | .error _ => errSearchMsg) = _
  rw [h]
  show pyStrip (searchLoop 1 res.source_documents) = _
  cases hd : res.source_documents with
  | nil => rfl
  | cons d rest =>
    rw [searchLoop_eq_joinNL]
    simp only [List.isEmpty_cons, Bool.false_eq_true, if_false]
    rw [pyStrip_append_newline]
    rfl

/-- Witness for C1 at a concrete pipeline returning two documents. -/
theorem C1_witness :
    okPipeline ⟨"r", sampleDocs⟩ "q" = .ok ⟨"r", sampleDocs⟩ ∧
    search_knowledgebase (some (okPipeline ⟨"r", sampleDocs⟩)) "q" =
      specSearchFormat sampleDocs :=
  ⟨rfl, C1_search_labeled_blocks _ "q" _ rfl⟩

/-- Serving any sequence of requests leaves the process state unchanged:
no view rebinds any module-level name. -/
theorem runSeq_eq_self (st : AppState) (reqs : List (Route × Body)) :
    runSeq st reqs = st := by
  induction reqs with
  | nil => rfl
  | cons rb rest ih => cases rb; exact ih

/-- C2 counterexample: a POST to `/kbanswer` whose JSON body lacks the
`message` field produces an HTTP 500 response (the `KeyError` propagates
out of the view and the framework converts it to a server error), and 500
is not a 4xx client-error status. -/
theorem C2_counterexample :
    runFlask (dispatch ⟨none, [], echoLlm⟩ Route.kbanswer []) = (500, none) ∧
    ¬(400 ≤ 500 ∧ 500 < 500) :=
  ⟨rfl, by decide⟩

/-- C2 amended: for every POST request to one of the three routes whose
JSON body lacks the `message` field, the response is an HTTP 500 server
error with no JSON payload. -/
theorem C2_amended (st : AppState) (r : Route) (body : Body)
    (h : body.lookup "message" = none) :
    runFlask (dispatch st r body) = (500, none) := by
  cases r <;>
    simp [dispatch, kbanswer, search, answer, dictGet, h, runFlask]

/-- Witness for the amended C2 at a concrete body without a `message`
field. -/
theorem C2_witness :
    (List.lookup "message" [("foo", "bar")] = (none : Option String)) ∧
    runFlask (dispatch ⟨none, [], echoLlm⟩ Route.search [("foo", "bar")]) = (500, none) :=
  ⟨rfl, C2_amended _ _ _ rfl⟩

/-- C3: when the pipeline handle is `None` at process start, after any
sequence of requests a well-formed call to `/kbanswer` or `/search` still
returns the fixed unavailability string with status 200, and the `/answer`
view does not depend on the pipeline handle at all. -/
theorem C3_unavailable_mode (st : AppState) (hqa : st.qa = none)
    (reqs : List (Route × Body)) (body : Body) (m : String)
    (hm : body.lookup "message" = some m) :
    dispatch (runSeq st reqs) Route.kbanswer body =
      .ok ([("message", kbUnavailableMsg)], 200) ∧
    dispatch (runSeq st reqs) Route.search body =
      .ok ([("message", kbUnavailableMsg)], 200) ∧
    (∀ (qa₁ qa₂ : Option Pipeline) (env : Env) (llm : LlmOracle) (b : Body),
      dispatch ⟨qa₁, env, llm⟩ Route.answer b = dispatch ⟨qa₂, env, llm⟩ Route.answer b) := by
  rw [runSeq_eq_self]
  refine ⟨?_, ?_, fun qa₁ qa₂ env llm b => rfl⟩ <;>
    simp [dispatch, kbanswer, search, dictGet, hm, hqa,
      answer_from_knowledgebase, search_knowledgebase]

/-- Witness for C3 at a concrete degraded state and request sequence. -/
theorem C3_witness :
    (AppState.mk none [] echoLlm).qa = none ∧
    List.lookup "message" [("message", "hi")] = some "hi" ∧
    dispatch (runSeq (AppState.mk none [] echoLlm) [(Route.answer, [])])
        Route.kbanswer [("message", "hi")] =
      .ok ([("message", kbUnavailableMsg)], 200) :=
  ⟨rfl, rfl,
    (C3_unavailable_mode (AppState.mk none [] echoLlm) rfl [(Route.answer, [])]
      [("message", "hi")] "hi" rfl).1⟩

/-- C4 counterexample: on an upstream exception the two knowledge-base
handlers do NOT return the same fixed failure string; at a concrete
always-raising pipeline their outputs differ. -/
theorem C4_counterexample :
    answer_from_knowledgebase (some failPipeline) "q" ≠
      search_knowledgebase (some failPipeline) "q" := by
  decide

/-- C4 amended: when the upstream pipeline call raises,
`answer_from_knowledgebase` returns the fixed processing-failure string
while `search_knowledgebase` returns the distinct fixed search-failure
string; the chatbot handler on a raising LLM call also returns the
processing-failure string, so failures are downgraded to one of three
(not two) literal user-facing strings. -/
theorem C4_amended (p : Pipeline) (msg : String) (e : PyExn)
    (h : p msg = .error e) :
    answer_from_knowledgebase (some p) msg = errProcessMsg ∧
    search_knowledgebase (some p) msg = errSearchMsg ∧
    errProcessMsg ≠ errSearchMsg ∧
    (∀ (env : Env) (key : String) (llm : LlmOracle) (m : String) (e₂ : PyExn),
      env.lookup "COHERE_API_KEY" = some key → ¬key = "" →
      llm key (chatPromptTemplate (renderHistory ConversationBufferMemory.new) m) =
        .error e₂ →
      answer_as_chatbot env llm m = errProcessMsg) := by
  refine ⟨?_, ?_, by decide, ?_⟩
  · show (match p msg with
      | .ok res => res.result
      | .error _ => errProcessMsg) = _
    rw [h]
  · show (match p msg with
      | .ok res => pyStrip (searchLoop 1 res.source_documents)
      | .error _ => errSearchMsg) = _
    rw [h]
  · intro env key llm m e₂ henv hkey hllm
    simp [answer_as_chatbot, henv, hkey, hllm]

/-- Witness for the amended C4 at a concrete always-raising pipeline. -/
theorem C4_witness :
    failPipeline "q" = .error (PyExn.other "boom") ∧
    answer_from_knowledgebase (some failPipeline) "q" = errProcessMsg ∧
    search_knowledgebase (some failPipeline) "q" = errSearchMsg :=
  ⟨rfl, (C4_amended failPipeline "q" _ rfl).1, (C4_amended failPipeline "q" _ rfl).2.1⟩

/-- C5: when the API credential is absent from the environment, the raised
configuration error is caught inside `answer_as_chatbot`, which returns
the fixed generic failure string. -/
theorem C5_missing_credential (env : Env) (llm : LlmOracle) (m : String)
    (h : env.lookup "COHERE_API_KEY" = none) :
    answer_as_chatbot env llm m = errProcessMsg := by
  unfold answer_as_chatbot
  rw [h]

/-- Witness for C5 at the empty environment. -/
theorem C5_witness :
    (List.lookup "COHERE_API_KEY" ([] : Env) = none) ∧
    answer_as_chatbot [] echoLlm "hi" = errProcessMsg :=
  ⟨rfl, C5_missing_credential [] echoLlm "hi" rfl⟩

/-- C6: every POST request to one of the three routes carrying a `message`
field yields a JSON object with a `message` field and HTTP status 200,
whatever the handler outcome. -/
theorem C6_success_envelope (st : AppState) (r : Route) (body : Body)
    (m : String) (h : body.lookup "message" = some m) :
    ∃ txt : String, dispatch st r body = .ok ([("message", txt)], 200) := by
  cases r
  · exact ⟨answer_from_knowledgebase st.qa m, by
      simp [dispatch, kbanswer, dictGet, h]⟩
  · exact ⟨search_knowledgebase st.qa m, by
      simp [dispatch, search, dictGet, h]⟩
  · exact ⟨answer_as_chatbot st.env st.llm m, by
      simp [dispatch, answer, dictGet, h]⟩

/-- Witness for C6 at a concrete request carrying a `message` field. -/
theorem C6_witness :
    List.lookup "message" [("message", "hi")] = some "hi" ∧
    ∃ txt : String, dispatch ⟨none, [], echoLlm⟩ Route.kbanswer [("message", "hi")] =
      .ok ([("message", txt)], 200) :=
  ⟨rfl, C6_success_envelope _ Route.kbanswer _ "hi" rfl⟩

/-- C7: on a successful pipeline call, `answer_from_knowledgebase` returns
exactly the primary result field of the pipeline result, unmodified. -/
theorem C7_result_passthrough (p : Pipeline) (msg : String) (res : QAResult)
    (h : p msg = .ok res) :
    answer_from_knowledgebase (some p) msg = res.result := by
  show (match p msg with
    | .ok res => res.result
    | .error _ => errProcessMsg) = _
  rw [h]

/-- Witness for C7 at the refund-policy example of the specification. -/
theorem C7_witness :
    okPipeline ⟨"Refunds are processed within 14 days.", []⟩ "What is the refund policy?" =
      .ok ⟨"Refunds are processed within 14 days.", []⟩ ∧
    answer_from_knowledgebase
        (some (okPipeline ⟨"Refunds are processed within 14 days.", []⟩))
        "What is the refund policy?" =
      "Refunds are processed within 14 days." :=
  ⟨rfl, C7_result_passthrough _ _ _ rfl⟩

/-- C8: `answer_as_chatbot` builds a fresh empty conversation buffer on
every call, so its output depends on the LLM oracle only through the
prompt rendered from the empty history and the current message, and the
`/answer` response after any sequence of preceding requests equals the
response on the initial state. -/
theorem C8_fresh_memory :
    (∀ (env : Env) (o o₂ : LlmOracle) (m : String),
      (∀ k : String,
        o k (chatPromptTemplate (renderHistory ConversationBufferMemory.new) m) =
          o₂ k (chatPromptTemplate (renderHistory ConversationBufferMemory.new) m)) →
      answer_as_chatbot env o m = answer_as_chatbot env o₂ m) ∧
    (∀ (st : AppState) (reqs : List (Route × Body)) (body : Body),
      dispatch (runSeq st reqs) Route.answer body = dispatch st Route.answer body) := by
  constructor
  · intro env o o₂ m hoo
    unfold answer_as_chatbot
    cases henv : env.lookup "COHERE_API_KEY" with
    | none => rfl
    | some key =>
      by_cases hk : key = ""
      · simp [hk]
      · simp only [if_neg hk]
        rw [hoo key]
  · intro st reqs body
    rw [runSeq_eq_self]

/-- Witness for C8 at a concrete environment, oracle and request
sequence. -/
theorem C8_witness :
    answer_as_chatbot [("COHERE_API_KEY", "k")] echoLlm "hi" =
      answer_as_chatbot [("COHERE_API_KEY", "k")] echoLlm "hi" ∧
    dispatch (runSeq ⟨none, [], echoLlm⟩ [(Route.kbanswer, [])]) Route.answer [] =
      dispatch ⟨none, [], echoLlm⟩ Route.answer [] :=
  ⟨C8_fresh_memory.1 [("COHERE_API_KEY", "k")] echoLlm echoLlm "hi" (fun _ => rfl),
   C8_fresh_memory.2 ⟨none, [], echoLlm⟩ [(Route.kbanswer, [])] []⟩

/-- C9: the module-level pipeline handle is never mutated or rebound by a
request: one request step preserves it, and so does any sequence of
requests. -/
theorem C9_qa_readonly :
    (∀ (st : AppState) (r : Route) (body : Body),
      ((appStep st r body).2).qa = st.qa) ∧
    (∀ (st : AppState) (reqs : List (Route × Body)),
      (runSeq st reqs).qa = st.qa) := by
  refine ⟨fun st r body => rfl, fun st reqs => ?_⟩
  rw [runSeq_eq_self]

/-- C10: when the pipeline succeeds with an empty list of source
documents, `search_knowledgebase` returns the empty string, and the
`/search` route returns a 200 response whose `message` field is empty. -/
theorem C10_empty_sources (p : Pipeline) (msg : String) (res : QAResult)
    (h : p msg = .ok res) (hdocs : res.source_documents = []) :
    search_knowledgebase (some p) msg = "" ∧
    (∀ (env : Env) (llm : LlmOracle) (body : Body),
      body.lookup "message" = some msg →
      dispatch ⟨some p, env, llm⟩ Route.search body = .ok ([("message", "")], 200)) := by
  have h1 : search_knowledgebase (some p) msg = "" := by
    show (match p msg with
      | .ok res => pyStrip (searchLoop 1 res.source_documents)
      | .error _ => errSearchMsg) = ""
    rw [h]
    show pyStrip (searchLoop 1 res.source_documents) = ""
    rw [hdocs]
    rfl
  refine ⟨h1, fun env llm body hb => ?_⟩
  simp [dispatch, search, dictGet, hb, h1]

/-- Witness for C10 at a concrete pipeline returning no documents. -/
theorem C10_witness :
    okPipeline ⟨"r", []⟩ "q" = .ok ⟨"r", []⟩ ∧
    (QAResult.mk "r" []).source_documents = [] ∧
    search_knowledgebase (some (okPipeline ⟨"r", []⟩)) "q" = "" :=
  ⟨rfl, rfl, (C10_empty_sources _ "q" _ rfl rfl).1⟩

end App
